import Mathlib

/-!
Shallow embedding of the predictml prediction service.

Sources embedded:
* `src/backend/main.py`   — namespace `Backend` (house price / salary / crop yield pipelines)
* `src/main.py`           — namespace `Api` (versioned service with prediction recording)
* `src/models.py`         — namespace `Models` (model-version table initialisation)
* `src/backend/stock_model.py`   — namespace `StockPredictor`
* `src/backend/weather_model.py` — namespace `WeatherPredictor`

Python floats are modelled as rationals.  The pre-trained scikit-learn
artifacts (models, scalers, the pickled location map) are opaque at serving
time, so pipelines are parametrised over them as functions.  Calls to
`np.random.normal` are modelled by explicit noise arguments, and
`np.sqrt(days_ahead)` by an explicit argument constrained in theorems to be
the non-negative square root of `days_ahead`.
-/

/-- Python's `round(x, 2)` modelled on rationals: round to 2 decimal places.
Python rounds half to even on binary floats; the two agree at every input
appearing in this development (no half-way ties arise). -/
def round2 (x : ℚ) : ℚ := (round (x * 100) : ℤ) / 100

/-- Python's `round(x, 1)` modelled on rationals: round to 1 decimal place. -/
def round1 (x : ℚ) : ℚ := (round (x * 10) : ℤ) / 10

/-- Python's `str.lower()`: lower-case every character (all vocabulary keys
here are ASCII).  Defined over the string's character list so that it
evaluates by kernel reduction. -/
def pyLower (s : String) : String := String.mk (s.data.map Char.toLower)

namespace Backend

/-- City vocabulary of `predict_house_price` (src/backend/main.py lines 97-100). -/
def city_map : List (String × ℤ) :=
  [("mumbai", 0), ("delhi", 1), ("bangalore", 2), ("chennai", 3),
   ("hyderabad", 4), ("pune", 5), ("kolkata", 6), ("ahmedabad", 7)]

/-- Education vocabulary of `predict_salary` (line 129). -/
def edu_map : List (String × ℤ) :=
  [("high_school", 0), ("bachelor", 1), ("master", 2), ("phd", 3)]

/-- Job-type vocabulary of `predict_salary` (lines 133-136). -/
def job_map : List (String × ℤ) :=
  [("it", 0), ("healthcare", 1), ("finance", 2), ("engineering", 3),
   ("sales", 4), ("marketing", 5)]

/-- Crop vocabulary of `predict_crop_yield` (lines 167-170). -/
def crop_map : List (String × ℤ) :=
  [("rice", 0), ("wheat", 1), ("cotton", 2), ("sugarcane", 3),
   ("maize", 4), ("soybean", 5), ("potato", 6)]

/-- State vocabulary of `predict_crop_yield` (lines 174-177). -/
def state_map : List (String × ℤ) :=
  [("punjab", 0), ("haryana", 1), ("up", 2), ("mp", 3),
   ("maharashtra", 4), ("karnataka", 5), ("tn", 6), ("wb", 7)]

/-- Encoder `city_map.get(city.lower(), 6)` — lower-case, look up, default 6. -/
def city_encode (s : String) : ℤ := ((city_map.lookup (pyLower s)).getD 6)

/-- Encoder `edu_map.get(education_level.lower(), 1)` — default 1. -/
def edu_encode (s : String) : ℤ := ((edu_map.lookup (pyLower s)).getD 1)

/-- Encoder `job_map.get(job_type.lower(), 0)` — default 0. -/
def job_encode (s : String) : ℤ := ((job_map.lookup (pyLower s)).getD 0)

/-- Encoder `crop_map.get(crop_type.lower(), 0)` — default 0. -/
def crop_encode (s : String) : ℤ := ((crop_map.lookup (pyLower s)).getD 0)

/-- Encoder `state_map.get(state.lower(), 0)` — default 0. -/
def state_encode (s : String) : ℤ := ((state_map.lookup (pyLower s)).getD 0)

/-- Request body of `/api/house-price/predict`. -/
structure HousePriceInput where
  city : String
  area_sqft : ℚ
  bedrooms : ℤ
  bathrooms : ℤ
  age : ℤ
  location_rating : ℚ

/-- Request body of `/api/salary/predict`. -/
structure SalaryInput where
  experience_years : ℚ
  education_level : String
  skills : List String
  job_type : String
  city_tier : ℤ

/-- Request body of `/api/crop-yield/predict`. -/
structure CropYieldInput where
  crop_type : String
  state : String
  area_hectares : ℚ
  rainfall_mm : ℚ
  temperature_celsius : ℚ
  fertilizer_kg : ℚ
  pesticide_kg : ℚ

/-- Response of the three backend prediction endpoints:
`{"prediction": ..., "currency"/"unit": ..., "model": ...}`. -/
structure PredictResponse where
  prediction : ℚ
  tag : String
  model : String
deriving DecidableEq

/-- Feature vector of the house pipeline:
`[city, area_sqft, bedrooms, bathrooms, age, location_rating]` (lines 104-111). -/
def house_features (input_data : HousePriceInput) : List ℚ :=
  [(city_encode input_data.city : ℚ), input_data.area_sqft,
   (input_data.bedrooms : ℚ), (input_data.bathrooms : ℚ),
   (input_data.age : ℚ), input_data.location_rating]

/-- Feature vector of the salary pipeline:
`[experience, education, job_type, city_tier, skills_count]` (lines 143-149). -/
def salary_features (input_data : SalaryInput) : List ℚ :=
  [input_data.experience_years, (edu_encode input_data.education_level : ℚ),
   (job_encode input_data.job_type : ℚ), (input_data.city_tier : ℚ),
   (input_data.skills.length : ℚ)]

/-- Feature vector of the crop pipeline:
`[crop, state, area, rainfall, temp, fertilizer, pesticide]` (lines 181-189). -/
def crop_features (input_data : CropYieldInput) : List ℚ :=
  [(crop_encode input_data.crop_type : ℚ), (state_encode input_data.state : ℚ),
   input_data.area_hectares, input_data.rainfall_mm, input_data.temperature_celsius,
   input_data.fertilizer_kg, input_data.pesticide_kg]

/-- Endpoint `/api/house-price/predict` (src/backend/main.py lines 92-122), parametrised
over the opaque fitted scaler and model artifacts. -/
def predict_house_price (scaler : List ℚ → List ℚ) (model : List ℚ → ℚ)
    (input_data : HousePriceInput) : PredictResponse :=
  let prediction := model (scaler (house_features input_data))
  { prediction := max 0 prediction, tag := "INR", model := "house_price" }

/-- Endpoint `/api/salary/predict` (src/backend/main.py lines 124-160): the skill bonus
`len(skills) * 5000` is added to the raw model output, and `max(0, ...)` is
applied to the sum. -/
def predict_salary (scaler : List ℚ → List ℚ) (model : List ℚ → ℚ)
    (input_data : SalaryInput) : PredictResponse :=
  let skill_bonus : ℚ := (input_data.skills.length : ℚ) * 5000
  let prediction := model (scaler (salary_features input_data)) + skill_bonus
  { prediction := max 0 prediction, tag := "INR", model := "salary" }

/-- Endpoint `/api/crop-yield/predict` (src/backend/main.py lines 162-200). -/
def predict_crop_yield (scaler : List ℚ → List ℚ) (model : List ℚ → ℚ)
    (input_data : CropYieldInput) : PredictResponse :=
  let prediction := model (scaler (crop_features input_data))
  { prediction := max 0 prediction, tag := "kg", model := "crop_yield" }

end Backend

namespace StockPredictor

/-- Constant `self.trend_weight = 0.05` (src/backend/stock_model.py line 12). -/
def trend_weight : ℚ := 5 / 100

/-- Constant `self.volatility = 0.02` (src/backend/stock_model.py line 13). -/
def volatility : ℚ := 2 / 100

/-- Dict returned by `StockPredictor.predict`. -/
structure StockResult where
  predicted_price : ℚ
  confidence : ℚ
  lower_bound : ℚ
  upper_bound : ℚ
  days_ahead : ℕ
deriving DecidableEq

/-- Method `StockPredictor.predict` (src/backend/stock_model.py lines 15-46).
`noise` stands for the draw of `np.random.normal(0, scale)` with
`scale = current_price * volatility * np.sqrt(days_ahead)`, and `sqrtD` stands
for `np.sqrt(days_ahead)`.  numpy raises `ValueError` when the scale handed to
`np.random.normal` is negative, so the method returns its dict only when that
scale is non-negative and otherwise raises; the scale expression coincides
with `std_error`. -/
def predict (current_price : ℚ) (days_ahead : ℕ) (noise sqrtD : ℚ) :
    Except String StockResult :=
  if current_price * volatility * sqrtD < 0 then
    .error "scale < 0"
  else
    let trend := current_price * trend_weight * (days_ahead : ℚ)
    let predicted_price := current_price + trend + noise
    let std_error := current_price * volatility * sqrtD
    let lower_bound := predicted_price - (196 / 100) * std_error
    let upper_bound := predicted_price + (196 / 100) * std_error
    let confidence := max (1 / 2) (1 - (days_ahead : ℚ) * (5 / 100))
    .ok { predicted_price := round2 predicted_price,
          confidence := round2 confidence,
          lower_bound := round2 lower_bound,
          upper_bound := round2 upper_bound,
          days_ahead := days_ahead }

end StockPredictor

namespace WeatherPredictor

/-- Constant `self.temperature_mean_reversion = 20` (src/backend/weather_model.py line 14). -/
def temperature_mean_reversion : ℚ := 20

/-- Predicted temperature before rounding (lines 29-31):
`current_temp + (20 - current_temp) * 0.1 * days_ahead + temp_noise`,
where `temp_noise` stands for `np.random.normal(0, 2 * sqrt(days_ahead))`. -/
def predicted_temp (current_temp : ℚ) (days_ahead : ℕ) (temp_noise : ℚ) : ℚ :=
  current_temp + (temperature_mean_reversion - current_temp) * (1 / 10) * (days_ahead : ℚ)
    + temp_noise

/-- Predicted humidity before rounding (lines 34-35):
`np.clip(current_humidity + humidity_noise, 0, 100)`, where `humidity_noise`
stands for `np.random.normal(0, 5 * sqrt(days_ahead))`. -/
def predicted_humidity (current_humidity humidity_noise : ℚ) : ℚ :=
  min (max (current_humidity + humidity_noise) 0) 100

/-- Dict returned by `WeatherPredictor.predict` (the `forecast_date` field,
wall-clock dependent, is outside the model). -/
structure WeatherResult where
  predicted_temperature : ℚ
  predicted_humidity : ℚ
  condition : String
  precipitation_chance : ℚ
  confidence : ℚ
  days_ahead : ℕ
deriving DecidableEq

/-- Method `WeatherPredictor.predict` (src/backend/weather_model.py lines 16-63).
The two noise arguments model the `np.random.normal` draws. -/
def predict (current_temp current_humidity : ℚ) (days_ahead : ℕ)
    (temp_noise humidity_noise : ℚ) : WeatherResult :=
  let pt := predicted_temp current_temp days_ahead temp_noise
  let ph := predicted_humidity current_humidity humidity_noise
  let cp : String × ℚ :=
    if ph > 70 then
      if pt > 15 then ("Rainy", min 95 (50 + ph * (5 / 10)))
      else ("Snowy", min 95 (40 + ph * (4 / 10)))
    else if ph > 50 then ("Cloudy", min 60 (ph * (6 / 10)))
    else ("Sunny", max 5 (ph * (3 / 10)))
  let confidence := max (4 / 10) ((95 / 100) - (days_ahead : ℚ) * (8 / 100))
  { predicted_temperature := round1 pt,
    predicted_humidity := round1 ph,
    condition := cp.1,
    precipitation_chance := round1 cp.2,
    confidence := round2 confidence,
    days_ahead := days_ahead }

end WeatherPredictor

namespace Api

/-- JSON-ish value stored in a record's `input_data` dict. -/
inductive JVal where
  | num : ℚ → JVal
  | str : String → JVal
  | nat : ℕ → JVal
deriving DecidableEq

/-- Row of the `prediction_history` table (src/models.py lines 14-23);
`id` and `created_at` are database-generated and outside the model. -/
structure PredictionHistoryRec where
  model_name : String
  model_version : String
  input_data : List (String × JVal)
  prediction : ℚ
  confidence : Option ℚ
deriving DecidableEq

/-- State of the `prediction_history` table, append-only. -/
abbrev Db := List PredictionHistoryRec

/-- Error raised as `HTTPException(status_code, detail)`. -/
structure HttpError where
  status : ℕ
  detail : String
deriving DecidableEq

/-- Outcome of the database commit inside `save_prediction`: `none` means the
commit succeeds, `some e` means it raises an exception rendered as `e`.  The
commit can fail for reasons outside the program (disk, connection), so this is
an environment input to each endpoint. -/
abbrev SaveOutcome := Option String

/-- Helper `save_prediction` (src/main.py lines 99-119): append the record and commit.
On commit failure the row is not persisted and the exception propagates. -/
def save_prediction (db : Db) (rec : PredictionHistoryRec) (outcome : SaveOutcome) :
    Except String Db :=
  match outcome with
  | none => .ok (db ++ [rec])
  | some e => .error e

/-- Request body of `/predict/salary` (src/main.py lines 58-59). -/
structure SalaryRequest where
  years_experience : ℚ

/-- Request body of `/predict/house` (lines 61-64). -/
structure HouseRequest where
  area : ℚ
  bedrooms : ℤ
  location : String

/-- Request body of `/predict/crop` (lines 66-68). -/
structure CropRequest where
  rainfall : ℚ
  temperature : ℚ

/-- Request body of `/predict/stock` (lines 70-72). -/
structure StockRequest where
  current_price : ℚ
  days_ahead : ℕ

/-- Request body of `/predict/weather` (lines 74-77). -/
structure WeatherRequest where
  current_temp : ℚ
  current_humidity : ℚ
  days_ahead : ℕ

/-- Response of `/predict/salary`. -/
structure SalaryResponse where
  predicted_salary : ℚ
  model : String
  version : String
deriving DecidableEq

/-- Response of `/predict/house`. -/
structure HouseResponse where
  predicted_price : ℚ
  model : String
  version : String
deriving DecidableEq

/-- Response of `/predict/crop`. -/
structure CropResponse where
  predicted_yield : ℚ
  model : String
  version : String
deriving DecidableEq

/-- Response of `/predict/stock`: the predictor's dict plus model/version tags. -/
structure StockResponse where
  result : StockPredictor.StockResult
  model : String
  version : String
deriving DecidableEq

/-- Response of `/predict/weather`: the predictor's dict plus model/version tags. -/
structure WeatherResponse where
  result : WeatherPredictor.WeatherResult
  model : String
  version : String
deriving DecidableEq

/-- Endpoint `/predict/salary` (src/main.py lines 145-166), parametrised over the opaque
pickled `salary_model`.  The model is scored, the record is saved, and only
then is the response returned; any exception (including a save failure) is
turned into a 500 error.  The returned `Db` is the table after the request. -/
def predict_salary (salary_model : ℚ → ℚ) (outcome : SaveOutcome) (db : Db)
    (request : SalaryRequest) : Except HttpError SalaryResponse × Db :=
  let prediction := salary_model request.years_experience
  match save_prediction db
      { model_name := "salary", model_version := "v1.0",
        input_data := [("years_experience", .num request.years_experience)],
        prediction := prediction, confidence := none } outcome with
  | .ok db2 =>
      (.ok { predicted_salary := round2 prediction,
             model := "Linear Regression", version := "v1.0" }, db2)
  | .error e => (.error { status := 500, detail := e }, db)

/-- Endpoint `/predict/house` (src/main.py lines 168-198), parametrised over the opaque
pickled `location_map` and `house_model`.  A location whose lower-casing is not
a key of `location_map` raises `HTTPException(400, ...)` listing the accepted
keys, before any scoring or saving; the `except HTTPException: raise` clause
re-raises it unchanged. -/
def predict_house (location_map : List (String × ℤ)) (house_model : List ℚ → ℚ)
    (outcome : SaveOutcome) (db : Db) (request : HouseRequest) :
    Except HttpError HouseResponse × Db :=
  match location_map.lookup (pyLower request.location) with
  | none =>
      (.error { status := 400,
                detail := "Invalid location. Must be one of: "
                  ++ String.intercalate ", " (location_map.map Prod.fst) }, db)
  | some location_encoded =>
      let prediction := house_model [request.area, (request.bedrooms : ℚ),
        (location_encoded : ℚ)]
      match save_prediction db
          { model_name := "house", model_version := "v1.0",
            input_data := [("area", .num request.area),
              ("bedrooms", .num (request.bedrooms : ℚ)),
              ("location", .str request.location)],
            prediction := prediction, confidence := none } outcome with
      | .ok db2 =>
          (.ok { predicted_price := round2 prediction,
                 model := "Random Forest", version := "v1.0" }, db2)
      | .error e => (.error { status := 500, detail := e }, db)

/-- Endpoint `/predict/crop` (src/main.py lines 200-221), parametrised over the opaque
pickled `crop_model`. -/
def predict_crop (crop_model : List ℚ → ℚ) (outcome : SaveOutcome) (db : Db)
    (request : CropRequest) : Except HttpError CropResponse × Db :=
  let prediction := crop_model [request.rainfall, request.temperature]
  match save_prediction db
      { model_name := "crop", model_version := "v1.0",
        input_data := [("rainfall", .num request.rainfall),
          ("temperature", .num request.temperature)],
        prediction := prediction, confidence := none } outcome with
  | .ok db2 =>
      (.ok { predicted_yield := round2 prediction,
             model := "Decision Tree", version := "v1.0" }, db2)
  | .error e => (.error { status := 500, detail := e }, db)

/-- Endpoint `/predict/stock` (src/main.py lines 223-245); `noise` and `sqrtD` are the
predictor's stochastic inputs as in `StockPredictor.predict`.  A ValueError
raised by the predictor (negative noise scale) is caught by the endpoint's
`except Exception` clause and turned into a 500 error before any saving. -/
def predict_stock (noise sqrtD : ℚ) (outcome : SaveOutcome) (db : Db)
    (request : StockRequest) : Except HttpError StockResponse × Db :=
  match StockPredictor.predict request.current_price request.days_ahead noise sqrtD with
  | .error e => (.error { status := 500, detail := e }, db)
  | .ok result =>
      match save_prediction db
          { model_name := "stock", model_version := "v1.0",
            input_data := [("current_price", .num request.current_price),
              ("days_ahead", .nat request.days_ahead)],
            prediction := result.predicted_price,
            confidence := some result.confidence } outcome with
      | .ok db2 =>
          (.ok { result := result, model := "LSTM (simulated)", version := "v1.0" }, db2)
      | .error e => (.error { status := 500, detail := e }, db)

/-- Endpoint `/predict/weather` (src/main.py lines 247-277); the noise arguments are the
predictor's stochastic inputs as in `WeatherPredictor.predict`. -/
def predict_weather (temp_noise humidity_noise : ℚ) (outcome : SaveOutcome) (db : Db)
    (request : WeatherRequest) : Except HttpError WeatherResponse × Db :=
  let result := WeatherPredictor.predict request.current_temp request.current_humidity
    request.days_ahead temp_noise humidity_noise
  match save_prediction db
      { model_name := "weather", model_version := "v1.0",
        input_data := [("current_temp", .num request.current_temp),
          ("current_humidity", .num request.current_humidity),
          ("days_ahead", .nat request.days_ahead)],
        prediction := result.predicted_temperature,
        confidence := some result.confidence } outcome with
  | .ok db2 =>
      (.ok { result := result, model := "Random Forest", version := "v1.0" }, db2)
  | .error e => (.error { status := 500, detail := e }, db)

end Api

namespace Models

/-- Row of the `model_versions` table (src/models.py lines 25-34); `id`,
`created_at` and `updated_at` are database-generated and outside the model. -/
structure ModelVersionRow where
  model_name : String
  current_version : String
  description : String
  accuracy : ℚ
deriving DecidableEq

/-- The five seed rows of `init_model_versions` (src/models.py lines 47-53). -/
def seed_models : List ModelVersionRow :=
  [{ model_name := "salary", current_version := "v1.0",
     description := "Linear Regression", accuracy := 98 / 100 },
   { model_name := "house", current_version := "v1.0",
     description := "Random Forest", accuracy := 95 / 100 },
   { model_name := "crop", current_version := "v1.0",
     description := "Decision Tree", accuracy := 92 / 100 },
   { model_name := "stock", current_version := "v1.0",
     description := "LSTM (simulated)", accuracy := 85 / 100 },
   { model_name := "weather", current_version := "v1.0",
     description := "Random Forest", accuracy := 88 / 100 }]

/-- One loop iteration of `init_model_versions` (lines 55-59): query the table
for the row's `model_name` and add the row only when absent.  The session has
`autoflush=False`, so each query sees the table as of the start of the call;
since the five seed names are distinct, visible behaviour coincides with
checking the accumulated state, which is what the fold below does. -/
def init_step (db : List ModelVersionRow) (m : ModelVersionRow) : List ModelVersionRow :=
  if db.any (fun r => r.model_name == m.model_name) then db else db ++ [m]

/-- Function `init_model_versions` (src/models.py lines 45-61): insert each seed row
whose `model_name` is not already present, then commit. -/
def init_model_versions (db : List ModelVersionRow) : List ModelVersionRow :=
  seed_models.foldl init_step db

/-- Number of rows of `db` carrying `model_name = n`. -/
def countName (db : List ModelVersionRow) (n : String) : ℕ :=
  (db.filter (fun r => r.model_name == n)).length

end Models

/-- Weather decision table as stated by the specification (rows evaluated in
order, first match wins), on the clamped predicted humidity and the predicted
temperature, returning the condition label and the precipitation-chance
formula before rounding.  Written from the spec's words, to be compared with
`WeatherPredictor.predict`. -/
def specWeatherTable (humidity temperature : ℚ) : String × ℚ :=
  if humidity > 70 ∧ temperature > 15 then ("Rainy", min 95 (50 + humidity * (5 / 10)))
  else if humidity > 70 ∧ temperature ≤ 15 then ("Snowy", min 95 (40 + humidity * (4 / 10)))
  else if 50 < humidity ∧ humidity ≤ 70 then ("Cloudy", min 60 (humidity * (6 / 10)))
  else ("Sunny", max 5 (humidity * (3 / 10)))

/-- The `model_versions` table's unique constraint on `model_name`
(src/models.py line 29): no two rows share a name. -/
def Models.uniqueNames (db : List Models.ModelVersionRow) : Prop :=
  db.Pairwise (fun a b => a.model_name ≠ b.model_name)

/-! ### Helper lemmas -/

/-- Rounding to the nearest integer is monotone on `ℚ`. -/
theorem roundq_mono {x y : ℚ} (h : x ≤ y) : round x ≤ round y := by
  rw [round_eq, round_eq]
  exact Int.floor_mono (by linarith)

/-- Rounding to 2 decimals is monotone. -/
theorem round2_mono {x y : ℚ} (h : x ≤ y) : round2 x ≤ round2 y := by
  unfold round2
  have h2 : round (x * 100) ≤ round (y * 100) := roundq_mono (by linarith)
  have h3 : ((round (x * 100) : ℤ) : ℚ) ≤ ((round (y * 100) : ℤ) : ℚ) := by exact_mod_cast h2
  linarith

/-- Rounding to 1 decimal is monotone. -/
theorem round1_mono {x y : ℚ} (h : x ≤ y) : round1 x ≤ round1 y := by
  unfold round1
  have h2 : round (x * 10) ≤ round (y * 10) := roundq_mono (by linarith)
  have h3 : ((round (x * 10) : ℤ) : ℚ) ≤ ((round (y * 10) : ℤ) : ℚ) := by exact_mod_cast h2
  linarith

/-- If `x * 100` is an integer, `round2` leaves `x` unchanged. -/
theorem round2_of_mul_int {x : ℚ} (n : ℤ) (h : x * 100 = (n : ℚ)) : round2 x = x := by
  unfold round2
  rw [h, round_intCast, ← h]
  ring

/-- If `x * 10` is an integer, `round1` leaves `x` unchanged. -/
theorem round1_of_mul_int {x : ℚ} (n : ℤ) (h : x * 10 = (n : ℚ)) : round1 x = x := by
  unfold round1
  rw [h, round_intCast, ← h]
  ring

/-- Characterisation of a successful stock prediction: success means the noise
scale was non-negative, and each returned field is the rounded formula. -/
theorem stock_ok_fields {p : ℚ} {d : ℕ} {noise s : ℚ} {r : StockPredictor.StockResult}
    (h : StockPredictor.predict p d noise s = Except.ok r) :
    0 ≤ p * StockPredictor.volatility * s
    ∧ r.predicted_price = round2 (p + p * StockPredictor.trend_weight * (d : ℚ) + noise)
    ∧ r.lower_bound = round2 (p + p * StockPredictor.trend_weight * (d : ℚ) + noise
        - (196 / 100) * (p * StockPredictor.volatility * s))
    ∧ r.upper_bound = round2 (p + p * StockPredictor.trend_weight * (d : ℚ) + noise
        + (196 / 100) * (p * StockPredictor.volatility * s))
    ∧ r.confidence = round2 (max (1 / 2) (1 - (d : ℚ) * (5 / 100))) := by
  unfold StockPredictor.predict at h
  split at h
  · exact absurd h (by simp)
  · rename_i hscale
    injection h with h2
    subst h2
    exact ⟨not_lt.mp hscale, rfl, rfl, rfl, rfl⟩

/-- Evaluation of the stock predictor at price 100, one day ahead, zero noise. -/
theorem stock_predict_eval_one :
    StockPredictor.predict 100 1 0 1
      = Except.ok { predicted_price := 105, confidence := 19 / 20,
                    lower_bound := 2527 / 25, upper_bound := 2723 / 25,
                    days_ahead := 1 } := by
  unfold StockPredictor.predict
  rw [if_neg (by norm_num [StockPredictor.volatility])]
  simp only [Except.ok.injEq, StockPredictor.StockResult.mk.injEq]
  refine ⟨?_, ?_, ?_, ?_, trivial⟩
  · rw [show (100 : ℚ) + 100 * StockPredictor.trend_weight * ((1 : ℕ) : ℚ) + 0 = 105 by
      norm_num [StockPredictor.trend_weight]]
    exact round2_of_mul_int 10500 (by norm_num)
  · rw [show (1 : ℚ) - ((1 : ℕ) : ℚ) * (5 / 100) = 19 / 20 by push_cast; norm_num]
    rw [max_eq_right (by norm_num : (1 / 2 : ℚ) ≤ 19 / 20)]
    exact round2_of_mul_int 95 (by norm_num)
  · rw [show (100 : ℚ) + 100 * StockPredictor.trend_weight * ((1 : ℕ) : ℚ) + 0
        - 196 / 100 * (100 * StockPredictor.volatility * 1) = 2527 / 25 by
      norm_num [StockPredictor.trend_weight, StockPredictor.volatility]]
    exact round2_of_mul_int 10108 (by norm_num)
  · rw [show (100 : ℚ) + 100 * StockPredictor.trend_weight * ((1 : ℕ) : ℚ) + 0
        + 196 / 100 * (100 * StockPredictor.volatility * 1) = 2723 / 25 by
      norm_num [StockPredictor.trend_weight, StockPredictor.volatility]]
    exact round2_of_mul_int 10892 (by norm_num)

/-- Evaluation of the stock predictor at price 100, three days ahead, zero
noise (with the sqrt argument kept at 1). -/
theorem stock_predict_eval_three :
    StockPredictor.predict 100 3 0 1
      = Except.ok { predicted_price := 115, confidence := 17 / 20,
                    lower_bound := 2777 / 25, upper_bound := 2973 / 25,
                    days_ahead := 3 } := by
  unfold StockPredictor.predict
  rw [if_neg (by norm_num [StockPredictor.volatility])]
  simp only [Except.ok.injEq, StockPredictor.StockResult.mk.injEq]
  refine ⟨?_, ?_, ?_, ?_, trivial⟩
  · rw [show (100 : ℚ) + 100 * StockPredictor.trend_weight * ((3 : ℕ) : ℚ) + 0 = 115 by
      norm_num [StockPredictor.trend_weight]]
    exact round2_of_mul_int 11500 (by norm_num)
  · rw [show (1 : ℚ) - ((3 : ℕ) : ℚ) * (5 / 100) = 17 / 20 by push_cast; norm_num]
    rw [max_eq_right (by norm_num : (1 / 2 : ℚ) ≤ 17 / 20)]
    exact round2_of_mul_int 85 (by norm_num)
  · rw [show (100 : ℚ) + 100 * StockPredictor.trend_weight * ((3 : ℕ) : ℚ) + 0
        - 196 / 100 * (100 * StockPredictor.volatility * 1) = 2777 / 25 by
      norm_num [StockPredictor.trend_weight, StockPredictor.volatility]]
    exact round2_of_mul_int 11108 (by norm_num)
  · rw [show (100 : ℚ) + 100 * StockPredictor.trend_weight * ((3 : ℕ) : ℚ) + 0
        + 196 / 100 * (100 * StockPredictor.volatility * 1) = 2973 / 25 by
      norm_num [StockPredictor.trend_weight, StockPredictor.volatility]]
    exact round2_of_mul_int 11892 (by norm_num)

/-- C1 counterexample.  With a model whose raw output on the scaled feature
vector is -10000 and one caller-supplied skill, the claimed value
`max(0, raw) + 1 * 5000 = 5000` differs from what the endpoint returns:
the code computes `max(0, raw + 5000) = 0`, clamping after the bonus. -/
theorem C1_counterexample :
    (Backend.predict_salary (fun v => v) (fun _ => -10000)
      { experience_years := 1, education_level := "bachelor", skills := ["python"],
        job_type := "it", city_tier := 1 }).prediction = 0
    ∧ (Backend.predict_salary (fun v => v) (fun _ => -10000)
      { experience_years := 1, education_level := "bachelor", skills := ["python"],
        job_type := "it", city_tier := 1 }).prediction
      ≠ max 0 (-10000 : ℚ) + 1 * 5000 := by
  constructor
  · norm_num [Backend.predict_salary]
  · norm_num [Backend.predict_salary]

/-- C1 (amended): the salary prediction equals
`max(0, raw model output + skill_count * 5000)` — the per-skill bonus is
added to the raw output before the clamp to non-negative, not after; whenever
the raw output is itself non-negative the two orders agree and the original
claim's formula holds. -/
theorem C1_salary_bonus (scaler : List ℚ → List ℚ) (model : List ℚ → ℚ)
    (input_data : Backend.SalaryInput) :
    (Backend.predict_salary scaler model input_data).prediction
      = max 0 (model (scaler (Backend.salary_features input_data))
          + (input_data.skills.length : ℚ) * 5000)
    ∧ (0 ≤ model (scaler (Backend.salary_features input_data)) →
        (Backend.predict_salary scaler model input_data).prediction
          = max 0 (model (scaler (Backend.salary_features input_data)))
            + (input_data.skills.length : ℚ) * 5000) := by
  constructor
  · rfl
  · intro h
    have hb : (0 : ℚ) ≤ (input_data.skills.length : ℚ) * 5000 := by positivity
    show max 0 (model (scaler (Backend.salary_features input_data))
        + (input_data.skills.length : ℚ) * 5000) = _
    rw [max_eq_right h, max_eq_right (by linarith)]

/-- C1 witness. -/
theorem C1_salary_bonus_witness :
    (0 : ℚ) ≤ (fun _ => (7 : ℚ)) ((fun v => v) (Backend.salary_features
      { experience_years := 1, education_level := "bachelor", skills := ["python"],
        job_type := "it", city_tier := 1 }))
    ∧ (Backend.predict_salary (fun v => v) (fun _ => (7 : ℚ))
        { experience_years := 1, education_level := "bachelor", skills := ["python"],
          job_type := "it", city_tier := 1 }).prediction
      = max 0 ((fun _ => (7 : ℚ)) ((fun v => v) (Backend.salary_features
          { experience_years := 1, education_level := "bachelor", skills := ["python"],
            job_type := "it", city_tier := 1 })))
        + (([("python" : String)].length : ℚ)) * 5000 :=
  ⟨by norm_num,
   (C1_salary_bonus (fun v => v) (fun _ => (7 : ℚ))
      { experience_years := 1, education_level := "bachelor", skills := ["python"],
        job_type := "it", city_tier := 1 }).2 (by norm_num)⟩

/-- C2 counterexample.  The `/predict/salary` pipeline of src/main.py applies
no clamp: with a pickled model whose output at `years_experience = -1` is
-1, the endpoint succeeds and returns the negative prediction -1. -/
theorem C2_counterexample :
    (Api.predict_salary (fun _ => -1) none [] { years_experience := -1 }).1
      = Except.ok { predicted_salary := -1, model := "Linear Regression", version := "v1.0" }
    ∧ ¬ ((0 : ℚ) ≤ -1) := by
  constructor
  · have hr : round2 (-1 : ℚ) = -1 := round2_of_mul_int (-100) (by norm_num)
    simp only [Api.predict_salary, Api.save_prediction]
    norm_num [hr]
  · norm_num

/-- C2 (amended): the three pipelines of src/backend/main.py always return a
non-negative prediction, for every opaque scaler/model artifact and every
input (adversarial values included), because each applies `max(0, ...)`; the
src/main.py pipelines return the rounded raw model output without any clamp,
so non-negativity fails there (see the counterexample). -/
theorem C2_backend_nonneg (scaler : List ℚ → List ℚ) (model : List ℚ → ℚ)
    (h : Backend.HousePriceInput) (s : Backend.SalaryInput) (c : Backend.CropYieldInput) :
    0 ≤ (Backend.predict_house_price scaler model h).prediction
    ∧ 0 ≤ (Backend.predict_salary scaler model s).prediction
    ∧ 0 ≤ (Backend.predict_crop_yield scaler model c).prediction :=
  ⟨le_max_left 0 _, le_max_left 0 _, le_max_left 0 _⟩

/-- C3 counterexample.  On `/predict/salary`, when the model scores
successfully (raw output 10 at experience 5) but the commit inside
`save_prediction` raises, the caller receives a 500 error, not the computed
prediction; the same request with a successful commit shows the prediction
that had been computed. -/
theorem C3_counterexample :
    (Api.predict_salary (fun x => 2 * x) (some "disk full") [] { years_experience := 5 }).1
      = Except.error { status := 500, detail := "disk full" }
    ∧ (Api.predict_salary (fun x => 2 * x) none [] { years_experience := 5 }).1
      = Except.ok { predicted_salary := 10, model := "Linear Regression", version := "v1.0" } := by
  constructor
  · rfl
  · have hr : round2 (10 : ℚ) = 10 := round2_of_mul_int 1000 (by norm_num)
    simp only [Api.predict_salary, Api.save_prediction]
    norm_num [hr]

/-- C3 (amended): on every recording pipeline of src/main.py (salary, house,
crop, stock, weather), when scoring succeeds but persisting the
PredictionRecord fails, the endpoint raises `HTTPException(500, ...)` carrying
the persistence error, the caller does not receive the already-computed
prediction, and nothing is appended to the history table.  (For the house
endpoint this concerns requests whose location is accepted — an unknown
location errors out before scoring; for the stock endpoint it concerns
requests on which the predictor returns a result — a negative noise scale
raises before scoring completes.) -/
theorem C3_recording_failure_fails_request (e : String) (db : Api.Db) :
    (∀ (m : ℚ → ℚ) (req : Api.SalaryRequest),
      Api.predict_salary m (some e) db req = (.error { status := 500, detail := e }, db))
    ∧ (∀ (lmap : List (String × ℤ)) (hm : List ℚ → ℚ) (req : Api.HouseRequest)
        (code : ℤ), lmap.lookup (pyLower req.location) = some code →
      Api.predict_house lmap hm (some e) db req = (.error { status := 500, detail := e }, db))
    ∧ (∀ (m : List ℚ → ℚ) (req : Api.CropRequest),
      Api.predict_crop m (some e) db req = (.error { status := 500, detail := e }, db))
    ∧ (∀ (noise sqrtD : ℚ) (req : Api.StockRequest) (r : StockPredictor.StockResult),
      StockPredictor.predict req.current_price req.days_ahead noise sqrtD = Except.ok r →
      Api.predict_stock noise sqrtD (some e) db req = (.error { status := 500, detail := e }, db))
    ∧ (∀ (tn hn : ℚ) (req : Api.WeatherRequest),
      Api.predict_weather tn hn (some e) db req = (.error { status := 500, detail := e }, db)) := by
  refine ⟨fun m req => rfl, fun lmap hm req code hcode => ?_, fun m req => rfl,
    fun noise sqrtD req r hr => ?_, fun tn hn req => rfl⟩
  · simp [Api.predict_house, Api.save_prediction, hcode]
  · simp [Api.predict_stock, Api.save_prediction, hr]

/-- C3 witness. -/
theorem C3_recording_failure_fails_request_witness :
    List.lookup (pyLower "Downtown") [("downtown", (0 : ℤ))] = some 0
    ∧ Api.predict_house [("downtown", (0 : ℤ))] (fun _ => 42) (some "disk full") []
        { area := 100, bedrooms := 2, location := "Downtown" }
      = (.error { status := 500, detail := "disk full" }, [])
    ∧ StockPredictor.predict 100 1 0 1
      = Except.ok { predicted_price := 105, confidence := 19 / 20,
                    lower_bound := 2527 / 25, upper_bound := 2723 / 25, days_ahead := 1 }
    ∧ Api.predict_stock 0 1 (some "disk full") [] { current_price := 100, days_ahead := 1 }
      = (.error { status := 500, detail := "disk full" }, []) :=
  ⟨rfl, (C3_recording_failure_fails_request "disk full" []).2.1 [("downtown", (0 : ℤ))]
      (fun _ => 42) { area := 100, bedrooms := 2, location := "Downtown" } 0 rfl,
   stock_predict_eval_one,
   (C3_recording_failure_fails_request "disk full" []).2.2.2.1 0 1
      { current_price := 100, days_ahead := 1 } _ stock_predict_eval_one⟩

/-- C4: on `/predict/house`, a location whose lower-casing is not a key of the
loaded location vocabulary yields `HTTPException(400, ...)` whose detail lists
the accepted keys; no prediction response is produced and the history table is
left untouched — there is no fallback default code. -/
theorem C4_invalid_location_hard_error (lmap : List (String × ℤ))
    (hm : List ℚ → ℚ) (outcome : Api.SaveOutcome) (db : Api.Db)
    (req : Api.HouseRequest) (h : lmap.lookup (pyLower req.location) = none) :
    Api.predict_house lmap hm outcome db req
      = (.error { status := 400,
                  detail := "Invalid location. Must be one of: "
                    ++ String.intercalate ", " (lmap.map Prod.fst) }, db) := by
  simp [Api.predict_house, h]

/-- C4 witness. -/
theorem C4_invalid_location_hard_error_witness :
    List.lookup (pyLower "Uptown") [("downtown", (0 : ℤ)), ("suburb", 1)] = none
    ∧ Api.predict_house [("downtown", (0 : ℤ)), ("suburb", 1)] (fun _ => 42) none []
        { area := 100, bedrooms := 2, location := "Uptown" }
      = (.error { status := 400,
                  detail := "Invalid location. Must be one of: "
                    ++ String.intercalate ", "
                      ([("downtown", (0 : ℤ)), ("suburb", 1)].map Prod.fst) }, []) :=
  ⟨rfl, C4_invalid_location_hard_error [("downtown", (0 : ℤ)), ("suburb", 1)]
      (fun _ => 42) none [] { area := 100, bedrooms := 2, location := "Uptown" } rfl⟩

/-- C5: for each categorical field of src/backend/main.py other than the
house-price location of src/main.py — city, education_level, job_type,
crop_type, state — any string whose lower-casing is not in the field's
vocabulary encodes to the field's fixed default code (city → 6,
education_level → 1, job_type → 0, crop_type → 0, state → 0).  Each encoder is
a total Lean function, so encoding never raises. -/
theorem C5_unknown_categorical_defaults (s : String) :
    (Backend.city_map.lookup (pyLower s) = none → Backend.city_encode s = 6)
    ∧ (Backend.edu_map.lookup (pyLower s) = none → Backend.edu_encode s = 1)
    ∧ (Backend.job_map.lookup (pyLower s) = none → Backend.job_encode s = 0)
    ∧ (Backend.crop_map.lookup (pyLower s) = none → Backend.crop_encode s = 0)
    ∧ (Backend.state_map.lookup (pyLower s) = none → Backend.state_encode s = 0) := by
  refine ⟨fun h => ?_, fun h => ?_, fun h => ?_, fun h => ?_, fun h => ?_⟩ <;>
    simp [Backend.city_encode, Backend.edu_encode, Backend.job_encode,
      Backend.crop_encode, Backend.state_encode, h]

/-- C5 witness. -/
theorem C5_unknown_categorical_defaults_witness :
    (Backend.city_map.lookup (pyLower "Atlantis") = none
      ∧ Backend.edu_map.lookup (pyLower "Atlantis") = none
      ∧ Backend.job_map.lookup (pyLower "Atlantis") = none
      ∧ Backend.crop_map.lookup (pyLower "Atlantis") = none
      ∧ Backend.state_map.lookup (pyLower "Atlantis") = none)
    ∧ Backend.city_encode "Atlantis" = 6
    ∧ Backend.edu_encode "Atlantis" = 1
    ∧ Backend.job_encode "Atlantis" = 0
    ∧ Backend.crop_encode "Atlantis" = 0
    ∧ Backend.state_encode "Atlantis" = 0 :=
  ⟨⟨rfl, rfl, rfl, rfl, rfl⟩,
   (C5_unknown_categorical_defaults "Atlantis").1 rfl,
   (C5_unknown_categorical_defaults "Atlantis").2.1 rfl,
   (C5_unknown_categorical_defaults "Atlantis").2.2.1 rfl,
   (C5_unknown_categorical_defaults "Atlantis").2.2.2.1 rfl,
   (C5_unknown_categorical_defaults "Atlantis").2.2.2.2 rfl⟩

/-- The condition label and rounded precipitation chance computed by
`WeatherPredictor.predict` agree with the spec's decision table evaluated on
the clamped humidity and predicted temperature. -/
theorem weather_table_agrees (t h : ℚ) (d : ℕ) (tn hn : ℚ) :
    (WeatherPredictor.predict t h d tn hn).condition
      = (specWeatherTable (WeatherPredictor.predicted_humidity h hn)
          (WeatherPredictor.predicted_temp t d tn)).1
    ∧ (WeatherPredictor.predict t h d tn hn).precipitation_chance
      = round1 (specWeatherTable (WeatherPredictor.predicted_humidity h hn)
          (WeatherPredictor.predicted_temp t d tn)).2 := by
  by_cases h1 : WeatherPredictor.predicted_humidity h hn > 70
  · by_cases h2 : WeatherPredictor.predicted_temp t d tn > 15
    · simp [WeatherPredictor.predict, specWeatherTable, h1, h2]
    · simp [WeatherPredictor.predict, specWeatherTable, h1, h2, not_lt.mp h2]
  · by_cases h3 : WeatherPredictor.predicted_humidity h hn > 50
    · simp [WeatherPredictor.predict, specWeatherTable, h1, h3, not_lt.mp h1]
    · simp [WeatherPredictor.predict, specWeatherTable, h1, h3]

/-- The clamped predicted humidity lies in [0, 100]. -/
theorem predicted_humidity_mem (h hn : ℚ) :
    0 ≤ WeatherPredictor.predicted_humidity h hn
    ∧ WeatherPredictor.predicted_humidity h hn ≤ 100 := by
  unfold WeatherPredictor.predicted_humidity
  exact ⟨le_min (le_max_right _ _) (by norm_num), min_le_right _ _⟩

/-- C6: the weather predictor clamps predicted humidity to [0, 100] and then
classifies condition and precipitation chance exactly by the spec's decision
table (rows evaluated in order, first match wins, strict thresholds), applied
to the clamped humidity and the predicted temperature; in particular clamped
humidity exactly 70 falls through to the Cloudy branch, and humidity 70.01
with temperature 16 gives Rainy. -/
theorem C6_weather_decision_table :
    (∀ (t h : ℚ) (d : ℕ) (tn hn : ℚ),
      (WeatherPredictor.predict t h d tn hn).condition
        = (specWeatherTable (WeatherPredictor.predicted_humidity h hn)
            (WeatherPredictor.predicted_temp t d tn)).1
      ∧ (WeatherPredictor.predict t h d tn hn).precipitation_chance
        = round1 (specWeatherTable (WeatherPredictor.predicted_humidity h hn)
            (WeatherPredictor.predicted_temp t d tn)).2
      ∧ 0 ≤ WeatherPredictor.predicted_humidity h hn
      ∧ WeatherPredictor.predicted_humidity h hn ≤ 100)
    ∧ (WeatherPredictor.predict 20 70 1 0 0).condition = "Cloudy"
    ∧ (WeatherPredictor.predict 16 (7001 / 100) 0 0 0).condition = "Rainy" := by
  refine ⟨fun t h d tn hn => ⟨(weather_table_agrees t h d tn hn).1,
    (weather_table_agrees t h d tn hn).2,
    (predicted_humidity_mem h hn).1, (predicted_humidity_mem h hn).2⟩, ?_, ?_⟩
  · norm_num [WeatherPredictor.predict, WeatherPredictor.predicted_humidity,
      WeatherPredictor.predicted_temp]
  · norm_num [WeatherPredictor.predict, WeatherPredictor.predicted_humidity,
      WeatherPredictor.predicted_temp]

/-- C10: for every input and noise draw, the returned precipitation chance
lies in [5, 95]; moreover the Cloudy branch yields a value strictly inside
that interval. -/
theorem C10_precipitation_in_range (t h : ℚ) (d : ℕ) (tn hn : ℚ) :
    (5 ≤ (WeatherPredictor.predict t h d tn hn).precipitation_chance
      ∧ (WeatherPredictor.predict t h d tn hn).precipitation_chance ≤ 95)
    ∧ ((WeatherPredictor.predict t h d tn hn).condition = "Cloudy" →
        5 < (WeatherPredictor.predict t h d tn hn).precipitation_chance
        ∧ (WeatherPredictor.predict t h d tn hn).precipitation_chance < 95) := by
  obtain ⟨hH0, hH100⟩ := predicted_humidity_mem h hn
  obtain ⟨hcond, hprec⟩ := weather_table_agrees t h d tn hn
  have h5 : round1 (5 : ℚ) = 5 := round1_of_mul_int 50 (by norm_num)
  have h30 : round1 (30 : ℚ) = 30 := round1_of_mul_int 300 (by norm_num)
  have h60 : round1 (60 : ℚ) = 60 := round1_of_mul_int 600 (by norm_num)
  have h95 : round1 (95 : ℚ) = 95 := round1_of_mul_int 950 (by norm_num)
  set H := WeatherPredictor.predicted_humidity h hn with hHdef
  set T := WeatherPredictor.predicted_temp t d tn with hTdef
  have hraw5 : 5 ≤ (specWeatherTable H T).2 := by
    unfold specWeatherTable
    split
    · exact le_min (by norm_num) (by linarith)
    · split
      · exact le_min (by norm_num) (by linarith)
      · split
        · rename_i hc
          exact le_min (by norm_num) (by linarith [hc.1])
        · exact le_max_left _ _
  have hraw95 : (specWeatherTable H T).2 ≤ 95 := by
    unfold specWeatherTable
    split
    · exact min_le_left _ _
    · split
      · exact min_le_left _ _
      · split
        · exact le_trans (min_le_left _ _) (by norm_num)
        · exact max_le (by norm_num) (by linarith)
  refine ⟨⟨?_, ?_⟩, fun hc => ?_⟩
  · rw [hprec, ← h5]
    exact round1_mono hraw5
  · rw [hprec, ← h95]
    exact round1_mono hraw95
  · rw [hcond] at hc
    have hcloudy : ¬ (H > 70 ∧ T > 15) ∧ ¬ (H > 70 ∧ T ≤ 15) ∧ (50 < H ∧ H ≤ 70) := by
      unfold specWeatherTable at hc
      split at hc
      · simp at hc
      · split at hc
        · simp at hc
        · split at hc
          · rename_i hc1 hc2 hc3
            exact ⟨hc1, hc2, hc3⟩
          · simp at hc
    obtain ⟨hn1, hn2, hc3⟩ := hcloudy
    have hval : (specWeatherTable H T).2 = min 60 (H * (6 / 10)) := by
      unfold specWeatherTable
      rw [if_neg hn1, if_neg hn2, if_pos hc3]
    have hlo : (30 : ℚ) ≤ (specWeatherTable H T).2 := by
      rw [hval]
      exact le_min (by norm_num) (by linarith [hc3.1])
    have hhi : (specWeatherTable H T).2 ≤ 60 := by
      rw [hval]
      exact min_le_left _ _
    constructor
    · rw [hprec]
      have := round1_mono hlo
      rw [h30] at this
      linarith
    · rw [hprec]
      have := round1_mono hhi
      rw [h60] at this
      linarith

/-- C10 witness. -/
theorem C10_precipitation_in_range_witness :
    (WeatherPredictor.predict 20 60 1 0 0).condition = "Cloudy"
    ∧ 5 < (WeatherPredictor.predict 20 60 1 0 0).precipitation_chance
    ∧ (WeatherPredictor.predict 20 60 1 0 0).precipitation_chance < 95 := by
  have hcloudy : (WeatherPredictor.predict 20 60 1 0 0).condition = "Cloudy" := by
    norm_num [WeatherPredictor.predict, WeatherPredictor.predicted_humidity,
      WeatherPredictor.predicted_temp]
  exact ⟨hcloudy, (C10_precipitation_in_range 20 60 1 0 0).2 hcloudy⟩

/-- C7: every band the stock predictor actually returns brackets the point
estimate.  The noise draw `np.random.normal(0, scale)` raises ValueError when
its scale — the same expression as `std_error` — is negative, so whenever a
result is returned `std_error ≥ 0` and, rounding being monotone,
`lower_bound ≤ predicted_price ≤ upper_bound`.  The claim's hypotheses hold
throughout: the fixed volatility 0.02 is non-negative and `days_ahead : ℕ`
is ≥ 0. -/
theorem C7_stock_band_brackets (p : ℚ) (d : ℕ) (noise s : ℚ)
    (r : StockPredictor.StockResult)
    (h : StockPredictor.predict p d noise s = Except.ok r) :
    r.lower_bound ≤ r.predicted_price ∧ r.predicted_price ≤ r.upper_bound := by
  obtain ⟨hstd, hpred, hlow, hup, -⟩ := stock_ok_fields h
  constructor
  · rw [hlow, hpred]
    exact round2_mono (by linarith)
  · rw [hpred, hup]
    exact round2_mono (by linarith)

/-- C7 witness. -/
theorem C7_stock_band_brackets_witness :
    StockPredictor.predict 100 1 0 1
      = Except.ok { predicted_price := 105, confidence := 19 / 20,
                    lower_bound := 2527 / 25, upper_bound := 2723 / 25, days_ahead := 1 }
    ∧ (2527 / 25 : ℚ) ≤ 105 ∧ (105 : ℚ) ≤ 2723 / 25 := by
  refine ⟨stock_predict_eval_one, ?_⟩
  exact C7_stock_band_brackets 100 1 0 1 _ stock_predict_eval_one

/-- C8: for both simulated predictors the returned confidence is
non-increasing in days_ahead and bounded below by the documented floor —
0.5 for stock (`max(0.5, 1 - 0.05 * d)`, on any pair of results the predictor
returns) and 0.4 for weather (`max(0.4, 0.95 - 0.08 * d)`), both returned
rounded to 2 decimals. -/
theorem C8_confidence_monotone_floored (p noise s t h tn hn : ℚ) (d1 d2 : ℕ)
    (hd : d1 ≤ d2) (r1 r2 : StockPredictor.StockResult)
    (h1 : StockPredictor.predict p d1 noise s = Except.ok r1)
    (h2 : StockPredictor.predict p d2 noise s = Except.ok r2) :
    (r2.confidence ≤ r1.confidence
      ∧ (WeatherPredictor.predict t h d2 tn hn).confidence
        ≤ (WeatherPredictor.predict t h d1 tn hn).confidence)
    ∧ ((1 / 2 : ℚ) ≤ r1.confidence
      ∧ (4 / 10 : ℚ) ≤ (WeatherPredictor.predict t h d1 tn hn).confidence) := by
  have hdc : ((d1 : ℚ)) ≤ ((d2 : ℚ)) := by exact_mod_cast hd
  have hhalf : round2 (1 / 2 : ℚ) = 1 / 2 := round2_of_mul_int 50 (by norm_num)
  have hfour : round2 (4 / 10 : ℚ) = 4 / 10 := round2_of_mul_int 40 (by norm_num)
  have hc1 := (stock_ok_fields h1).2.2.2.2
  have hc2 := (stock_ok_fields h2).2.2.2.2
  refine ⟨⟨?_, ?_⟩, ?_, ?_⟩
  · rw [hc1, hc2]
    exact round2_mono (max_le_max le_rfl (by linarith))
  · show round2 (max (4 / 10) ((95 / 100) - (d2 : ℚ) * (8 / 100)))
      ≤ round2 (max (4 / 10) ((95 / 100) - (d1 : ℚ) * (8 / 100)))
    exact round2_mono (max_le_max le_rfl (by linarith))
  · rw [hc1]
    calc (1 / 2 : ℚ) = round2 (1 / 2) := hhalf.symm
      _ ≤ round2 (max (1 / 2) (1 - (d1 : ℚ) * (5 / 100))) :=
        round2_mono (le_max_left _ _)
  · show (4 / 10 : ℚ) ≤ round2 (max (4 / 10) ((95 / 100) - (d1 : ℚ) * (8 / 100)))
    calc (4 / 10 : ℚ) = round2 (4 / 10) := hfour.symm
      _ ≤ round2 (max (4 / 10) ((95 / 100) - (d1 : ℚ) * (8 / 100))) :=
        round2_mono (le_max_left _ _)

/-- C8 witness. -/
theorem C8_confidence_monotone_floored_witness :
    (1 : ℕ) ≤ 3
    ∧ StockPredictor.predict 100 1 0 1
      = Except.ok { predicted_price := 105, confidence := 19 / 20,
                    lower_bound := 2527 / 25, upper_bound := 2723 / 25, days_ahead := 1 }
    ∧ StockPredictor.predict 100 3 0 1
      = Except.ok { predicted_price := 115, confidence := 17 / 20,
                    lower_bound := 2777 / 25, upper_bound := 2973 / 25, days_ahead := 3 }
    ∧ (17 / 20 : ℚ) ≤ 19 / 20
    ∧ (1 / 2 : ℚ) ≤ 19 / 20 := by
  refine ⟨by norm_num, stock_predict_eval_one, stock_predict_eval_three, ?_, ?_⟩
  · exact (C8_confidence_monotone_floored 100 0 1 20 60 0 0 1 3 (by norm_num) _ _
      stock_predict_eval_one stock_predict_eval_three).1.1
  · exact (C8_confidence_monotone_floored 100 0 1 20 60 0 0 1 3 (by norm_num) _ _
      stock_predict_eval_one stock_predict_eval_three).2.1

/-- Appending a single row adds one to the count of its name. -/
theorem Models.countName_append_single (db : List Models.ModelVersionRow)
    (m : Models.ModelVersionRow) (n : String) :
    Models.countName (db ++ [m]) n
      = Models.countName db n + (if m.model_name == n then 1 else 0) := by
  unfold Models.countName
  rw [List.filter_append, List.length_append]
  congr 1
  by_cases hm : (m.model_name == n)
  · simp [hm]
  · simp [hm]

/-- A step for a row of another name leaves the count unchanged. -/
theorem Models.init_step_name_ne (db : List Models.ModelVersionRow)
    (m : Models.ModelVersionRow) (n : String) (hne : m.model_name ≠ n) :
    Models.countName (Models.init_step db m) n = Models.countName db n := by
  unfold Models.init_step
  split
  · rfl
  · rw [Models.countName_append_single]
    simp [hne]

/-- Absent name means zero count. -/
theorem Models.countName_eq_zero_of_any_false (db : List Models.ModelVersionRow)
    (n : String) (h : db.any (fun r => r.model_name == n) = false) :
    Models.countName db n = 0 := by
  unfold Models.countName
  rw [List.length_eq_zero, List.filter_eq_nil_iff]
  intro r hr
  simp only [List.any_eq_false] at h
  exact h r hr

/-- A positive count yields a row with that name. -/
theorem Models.any_true_of_countName_pos (db : List Models.ModelVersionRow)
    (n : String) (h : 1 ≤ Models.countName db n) :
    db.any (fun r => r.model_name == n) = true := by
  unfold Models.countName at h
  have hne : db.filter (fun r => r.model_name == n) ≠ [] := by
    intro h0
    rw [h0] at h
    simp at h
  obtain ⟨r, hr⟩ := List.exists_mem_of_ne_nil _ hne
  obtain ⟨hrdb, hrp⟩ := List.mem_filter.mp hr
  exact List.any_eq_true.mpr ⟨r, hrdb, hrp⟩

/-- A row with a present name yields a positive count. -/
theorem Models.countName_pos_of_any_true (db : List Models.ModelVersionRow)
    (n : String) (h : db.any (fun r => r.model_name == n) = true) :
    1 ≤ Models.countName db n := by
  obtain ⟨r, hr, hp⟩ := List.any_eq_true.mp h
  unfold Models.countName
  exact List.length_pos_of_mem (List.mem_filter.mpr ⟨hr, hp⟩)

/-- After its own step, a row's name has count exactly one (given the unique
constraint held before). -/
theorem Models.init_step_self (db : List Models.ModelVersionRow)
    (m : Models.ModelVersionRow) (hle : Models.countName db m.model_name ≤ 1) :
    Models.countName (Models.init_step db m) m.model_name = 1 := by
  unfold Models.init_step
  split
  · rename_i hcond
    have := Models.countName_pos_of_any_true db m.model_name hcond
    omega
  · rename_i hcond
    have hfalse : db.any (fun r => r.model_name == m.model_name) = false := by
      revert hcond
      cases db.any (fun r => r.model_name == m.model_name) <;> simp
    have h0 := Models.countName_eq_zero_of_any_false db m.model_name hfalse
    rw [Models.countName_append_single]
    simp [h0]

/-- A step preserves the unique constraint for any name. -/
theorem Models.init_step_le_one (db : List Models.ModelVersionRow)
    (m : Models.ModelVersionRow) (n : String) (hle : Models.countName db n ≤ 1) :
    Models.countName (Models.init_step db m) n ≤ 1 := by
  by_cases heq : m.model_name = n
  · subst heq
    rw [Models.init_step_self db m hle]
  · rw [Models.init_step_name_ne db m n heq]
    exact hle

/-- A step for an already-present name is a no-op. -/
theorem Models.init_step_of_present (db : List Models.ModelVersionRow)
    (m : Models.ModelVersionRow)
    (h : db.any (fun r => r.model_name == m.model_name) = true) :
    Models.init_step db m = db := by
  unfold Models.init_step
  simp [h]

/-- A step only appends. -/
theorem Models.init_step_append (db : List Models.ModelVersionRow)
    (m : Models.ModelVersionRow) : ∃ u, Models.init_step db m = db ++ u := by
  unfold Models.init_step
  split
  · exact ⟨[], (List.append_nil db).symm⟩
  · exact ⟨[m], rfl⟩

/-- The whole fold only appends. -/
theorem Models.foldl_init_step_append (ms : List Models.ModelVersionRow) :
    ∀ db, ∃ u, ms.foldl Models.init_step db = db ++ u := by
  induction ms with
  | nil => exact fun db => ⟨[], (List.append_nil db).symm⟩
  | cons m ms ih =>
    intro db
    obtain ⟨u1, hu1⟩ := Models.init_step_append db m
    obtain ⟨u2, hu2⟩ := ih (Models.init_step db m)
    refine ⟨u1 ++ u2, ?_⟩
    rw [List.foldl_cons, hu2, hu1, List.append_assoc]

/-- A name with count one keeps count one through the fold. -/
theorem Models.foldl_init_step_stable (ms : List Models.ModelVersionRow) :
    ∀ db n, Models.countName db n = 1 →
      Models.countName (ms.foldl Models.init_step db) n = 1 := by
  induction ms with
  | nil => exact fun db n h => h
  | cons m ms ih =>
    intro db n h
    rw [List.foldl_cons]
    apply ih
    by_cases heq : m.model_name = n
    · subst heq
      exact Models.init_step_self db m (le_of_eq h)
    · rw [Models.init_step_name_ne db m n heq]
      exact h

/-- After the fold, every name occurring in the seed list has count one. -/
theorem Models.foldl_init_step_count_of_mem (ms : List Models.ModelVersionRow) :
    ∀ db n, Models.countName db n ≤ 1 → (∃ m ∈ ms, m.model_name = n) →
      Models.countName (ms.foldl Models.init_step db) n = 1 := by
  induction ms with
  | nil =>
    intro db n _ h
    simp at h
  | cons m ms ih =>
    intro db n hle hmem
    rw [List.foldl_cons]
    by_cases heq : m.model_name = n
    · apply Models.foldl_init_step_stable
      subst heq
      exact Models.init_step_self db m hle
    · obtain ⟨m2, hm2, hname⟩ := hmem
      rcases List.mem_cons.mp hm2 with h1 | h2
      · subst h1
        exact absurd hname heq
      · exact ih (Models.init_step db m) n (Models.init_step_le_one db m n hle)
          ⟨m2, h2, hname⟩

/-- If every seed name is already present, the fold is a no-op. -/
theorem Models.foldl_init_step_noop (ms : List Models.ModelVersionRow) :
    ∀ db, (∀ m ∈ ms, db.any (fun r => r.model_name == m.model_name) = true) →
      ms.foldl Models.init_step db = db := by
  induction ms with
  | nil => exact fun db _ => rfl
  | cons m ms ih =>
    intro db h
    rw [List.foldl_cons, Models.init_step_of_present db m (h m (List.mem_cons_self m ms))]
    exact ih db (fun m2 hm2 => h m2 (List.mem_cons_of_mem m hm2))

/-- The unique constraint bounds every name count by one. -/
theorem Models.uniqueNames_le_one :
    ∀ db : List Models.ModelVersionRow, Models.uniqueNames db →
      ∀ n, Models.countName db n ≤ 1 := by
  intro db
  induction db with
  | nil =>
    intro _ n
    simp [Models.countName]
  | cons a l ih =>
    intro huniq n
    obtain ⟨h1, h2⟩ := List.pairwise_cons.mp huniq
    unfold Models.countName
    by_cases ha : (a.model_name == n)
    · have h0 : l.filter (fun r => r.model_name == n) = [] := by
        rw [List.filter_eq_nil_iff]
        intro r hr
        have hane : a.model_name ≠ r.model_name := h1 r hr
        rw [beq_iff_eq] at ha
        rw [ha] at hane
        simp only [ne_eq, Bool.not_eq_true, beq_eq_false_iff_ne]
        exact fun hc => hane hc.symm
      simp [List.filter_cons, ha, h0]
    · simp only [List.filter_cons, ha, if_false]
      exact ih h2 n

/-- C9: `init_model_versions` is an idempotent upsert-by-absence.  Starting
from any table state satisfying the schema's unique constraint on
`model_name`: after one call each of the five families (salary, house, crop,
stock, weather) has exactly one row; the call only appends, so every existing
row is left byte-for-byte unchanged; and a second call returns the table
unchanged (running it twice equals running it once). -/
theorem C9_init_model_versions_idempotent (db : List Models.ModelVersionRow)
    (huniq : Models.uniqueNames db) :
    (Models.countName (Models.init_model_versions db) "salary" = 1
      ∧ Models.countName (Models.init_model_versions db) "house" = 1
      ∧ Models.countName (Models.init_model_versions db) "crop" = 1
      ∧ Models.countName (Models.init_model_versions db) "stock" = 1
      ∧ Models.countName (Models.init_model_versions db) "weather" = 1)
    ∧ (∃ u, Models.init_model_versions db = db ++ u)
    ∧ Models.init_model_versions (Models.init_model_versions db)
        = Models.init_model_versions db := by
  have hle := Models.uniqueNames_le_one db huniq
  have hcount : ∀ n : String, (∃ m ∈ Models.seed_models, m.model_name = n) →
      Models.countName (Models.init_model_versions db) n = 1 := by
    intro n hmem
    unfold Models.init_model_versions
    exact Models.foldl_init_step_count_of_mem Models.seed_models db n (hle n) hmem
  refine ⟨⟨hcount "salary" (by simp [Models.seed_models]),
    hcount "house" (by simp [Models.seed_models]),
    hcount "crop" (by simp [Models.seed_models]),
    hcount "stock" (by simp [Models.seed_models]),
    hcount "weather" (by simp [Models.seed_models])⟩, ?_, ?_⟩
  · unfold Models.init_model_versions
    exact Models.foldl_init_step_append Models.seed_models db
  · show Models.seed_models.foldl Models.init_step (Models.init_model_versions db)
      = Models.init_model_versions db
    apply Models.foldl_init_step_noop
    intro m hm
    apply Models.any_true_of_countName_pos
    have := hcount m.model_name ⟨m, hm, rfl⟩
    omega

/-- C9 witness. -/
theorem C9_init_model_versions_idempotent_witness :
    Models.uniqueNames ([] : List Models.ModelVersionRow)
    ∧ Models.countName (Models.init_model_versions []) "salary" = 1 := by
  have hu : Models.uniqueNames ([] : List Models.ModelVersionRow) := List.Pairwise.nil
  exact ⟨hu, (C9_init_model_versions_idempotent [] hu).1.1⟩
